import Mathlib

/-!
Verification of the tangerine banking client (`tangerine/client.py`).

The client is embedded shallowly: Python JSON values become the inductive
`Json`, Python exceptions become the inductive `PyError`, and every
network-touching method is a pure function over an explicit environment
describing the HTTP collaborators (status codes and bodies), returning both
the list of externally visible effects (GET requests, file writes) and an
`Except`-style outcome.
-/

namespace Tangerine

/-- Model of a decoded Python JSON value (the result of `response.json()`),
with `null` also standing for the Python value `None`. -/
inductive Json where
  | null
  | bool (b : Bool)
  | num (n : Int)
  | str (s : String)
  | arr (elems : List Json)
  | obj (fields : List (String × Json))

/-- Model of the Python exceptions the client can raise. -/
inductive PyError where
  | apiResponseError (envelope : Json)
  | unsupportedAccountTypeForDownload (accountType : Json)
  | httpError (status : Nat)
  | keyError (key : String)
  | typeError

/-- First-match association lookup, adequate for the duplicate-free literal
dicts the client builds and receives. -/
def assocLookup : List (String × Json) → String → Option Json
  | [], _ => none
  | (k, v) :: rest, key => if k = key then some v else assocLookup rest key

/-- Python subscripting `j[k]` with a string key: returns the value for an
object carrying the key, raises `KeyError` for an object without it, and
raises `TypeError` for any non-dict value (including `None`). -/
def Json.subscript (j : Json) (k : String) : Except PyError Json :=
  match j with
  | .obj fields =>
    match assocLookup fields k with
    | some v => .ok v
    | none => .error (.keyError k)
  | _ => .error .typeError

/-- Python equality test `j == s` between an arbitrary value and a string
literal: true exactly when `j` is that string. -/
def Json.isStr (j : Json) (s : String) : Bool :=
  match j with
  | .str t => t == s
  | _ => false

/-- The `api_response(root_key, check_response_status)` decorator body applied
to the value the wrapped function returned (`client.py` lines 18-29): when
status checking is on, a missing or non-`SUCCESS` `response_status.status_code`
raises `APIResponseError` with the whole envelope; otherwise the envelope (for
an empty root key) or the root key's value is returned. -/
def api_response (root_key : String) (check_response_status : Bool)
    (response_json : Json) : Except PyError Json :=
  match
    (if check_response_status then
      match response_json.subscript "response_status" with
      | .error e => .error e
      | .ok rs =>
        match rs.subscript "status_code" with
        | .error e => .error e
        | .ok sc =>
          if sc.isStr "SUCCESS" then .ok ()
          else .error (.apiResponseError response_json)
    else (.ok () : Except PyError Unit)) with
  | .error e => .error e
  | .ok _ =>
    if root_key = "" then .ok response_json
    else response_json.subscript root_key

/-- The decorator around a wrapped call that may itself have raised: an
exception from the wrapped function propagates before any envelope
inspection happens. -/
def apiResponseWrap (root_key : String) (check_response_status : Bool)
    (fn_result : Except PyError Json) : Except PyError Json :=
  match fn_result with
  | .error e => .error e
  | .ok j => api_response root_key check_response_status j

/-- A calendar date as `datetime.date` supplies it to the client: the client
only ever formats dates, so the embedding needs no calendar arithmetic. -/
structure Date where
  year : Nat
  month : Nat
  day : Nat

/-- Zero-pad to two digits, as `strftime` does for `%m` and `%d`. -/
def padZero2 (n : Nat) : String :=
  if n < 10 then "0" ++ toString n else toString n

/-- Zero-pad to four digits, as `strftime` does for `%Y`. -/
def padZero4 (n : Nat) : String :=
  if n < 10 then "000" ++ toString n
  else if n < 100 then "00" ++ toString n
  else if n < 1000 then "0" ++ toString n
  else toString n

/-- Python `d.strftime("%Y-%m-%dT00:00:00.000Z")`, the transaction period
format. -/
def strftimePeriod (d : Date) : String :=
  padZero4 d.year ++ "-" ++ padZero2 d.month ++ "-" ++ padZero2 d.day
    ++ "T00:00:00.000Z"

/-- Python `d.strftime("%Y%m%d")`, the statement download range format. -/
def strftimeYmd (d : Date) : String :=
  padZero4 d.year ++ padZero2 d.month ++ padZero2 d.day

/-- Python `d.strftime("%Y-%m-%d")`, the scheduled transfer date format. -/
def strftimeIsoDate (d : Date) : String :=
  padZero4 d.year ++ "-" ++ padZero2 d.month ++ "-" ++ padZero2 d.day

mutual

/-- Python `repr` of a JSON value, used by `str` on containers. String
escaping of quote characters inside the string is not reproduced; the client
never builds such values. -/
def pyRepr : Json → String
  | .null => "None"
  | .bool b => if b then "True" else "False"
  | .num n => toString n
  | .str s => "\x27" ++ s ++ "\x27"
  | .arr elems => "[" ++ pyReprElems elems ++ "]"
  | .obj fields => "\x7b" ++ pyReprFields fields ++ "\x7d"

/-- Comma-separated `repr`s of list elements. -/
def pyReprElems : List Json → String
  | [] => ""
  | [v] => pyRepr v
  | v :: rest => pyRepr v ++ ", " ++ pyReprElems rest

/-- Comma-separated `repr`s of dict entries. -/
def pyReprFields : List (String × Json) → String
  | [] => ""
  | [(k, v)] => "\x27" ++ k ++ "\x27: " ++ pyRepr v
  | (k, v) :: rest => "\x27" ++ k ++ "\x27: " ++ pyRepr v ++ ", " ++ pyReprFields rest

end

/-- Python `str` applied to a JSON value, as `"...{}".format(v)` and
`urlencode` do to interpolate values. -/
def pyStr : Json → String
  | .null => "None"
  | .bool b => if b then "True" else "False"
  | .num n => toString n
  | .str s => s
  | .arr elems => "[" ++ pyReprElems elems ++ "]"
  | .obj fields => "\x7b" ++ pyReprFields fields ++ "\x7d"

/-- UTF-8 encoding of one character, as a list of byte values. -/
def charUtf8Bytes (c : Char) : List Nat :=
  let n := c.toNat
  if n < 128 then [n]
  else if n < 2048 then [192 + n / 64, 128 + n % 64]
  else if n < 65536 then [224 + n / 4096, 128 + (n / 64) % 64, 128 + n % 64]
  else [240 + n / 262144, 128 + (n / 4096) % 64, 128 + (n / 64) % 64, 128 + n % 64]

/-- UTF-8 encoding of a string, as a list of byte values. -/
def stringUtf8Bytes (s : String) : List Nat :=
  s.data.foldr (fun c acc => charUtf8Bytes c ++ acc) []

/-- Uppercase hexadecimal digit, for percent-encoding. -/
def hexDigitUpper (n : Nat) : Char :=
  if n < 10 then Char.ofNat (48 + n) else Char.ofNat (55 + n)

/-- Percent-encoding of one byte, uppercase as `urllib.parse.quote`
produces it. -/
def percentEncodeByte (b : Nat) : String :=
  String.mk [Char.ofNat 37, hexDigitUpper (b / 16), hexDigitUpper (b % 16)]

/-- The bytes `urllib.parse.quote` never encodes regardless of `safe`:
ASCII letters, digits, and `_ . - ~`. -/
def isAlwaysSafeByte (b : Nat) : Bool :=
  (65 ≤ b && b ≤ 90) || (97 ≤ b && b ≤ 122) || (48 ≤ b && b ≤ 57)
    || b == 45 || b == 46 || b == 95 || b == 126

/-- Python `urllib.parse.quote_plus(s)` with its default empty `safe` set:
spaces become `+`, every other non-safe byte of the UTF-8 encoding is
percent-encoded. -/
def quote_plus (s : String) : String :=
  String.join ((stringUtf8Bytes s).map (fun b =>
    if isAlwaysSafeByte b then String.mk [Char.ofNat b]
    else if b == 32 then "+"
    else percentEncodeByte b))

/-- Python `urllib.parse.quote(s)` with its default `safe="/"`: like
`quote_plus` but `/` stays literal and a space is percent-encoded. -/
def quote (s : String) : String :=
  String.join ((stringUtf8Bytes s).map (fun b =>
    if isAlwaysSafeByte b || b == 47 then String.mk [Char.ofNat b]
    else percentEncodeByte b))

/-- Python `urllib.parse.urlencode(params)` over an insertion-ordered dict:
`k=v` pairs joined by `&`, keys and stringified values passed through
`quote_plus`. -/
def urlencode (params : List (String × Json)) : String :=
  String.intercalate "&"
    (params.map (fun kv => quote_plus kv.1 ++ "=" ++ quote_plus (pyStr kv.2)))

/-- An externally visible effect of a client method: a GET against the main
API host, a GET against the statement-download host, or a local file write. -/
inductive Event where
  | apiGet (url : String)
  | ofxGet (url : String)
  | fileWrite (filename : String) (contents : String)

/-- The HTTP collaborators of the read pipeline: each GET URL is answered
with a transport status code and, for the main API, a decoded JSON body, or,
for the download host, raw response text. -/
structure HttpEnv where
  apiGet : String → Nat × Json
  ofxGet : String → Nat × String

/-- Whether `requests`' `raise_for_status` raises for this status code: it
does exactly for 4xx and 5xx responses. -/
def raiseForStatus (status : Nat) : Bool :=
  400 ≤ status && status < 600

/-- The main API URL for a path, as `_api_get` and `_api_post` format it. -/
def apiUrl (path : String) : String :=
  "https://secure.tangerine.ca/web/rest" ++ path

/-- The `_api_get` method (`client.py` lines 39-43): GET the main-API URL,
raise on a 4xx/5xx status, and return the decoded JSON body. -/
def _api_get (env : HttpEnv) (path : String) : List Event × Except PyError Json :=
  let url := apiUrl path
  let res := env.apiGet url
  ([.apiGet url],
    if raiseForStatus res.1 then .error (.httpError res.1) else .ok res.2)

/-- The path `get_account` formats from the account id (`str()`-interpolated
as Python `format` does). -/
def accountPath (account_id : Json) : String :=
  "/v1/accounts/" ++ pyStr account_id ++ "?billing-cycle-ranges=true"

/-- The `get_account` method: GET the account summary path and unwrap the
`account_summary` key of a status-checked envelope. -/
def get_account (env : HttpEnv) (account_id : Json) : List Event × Except PyError Json :=
  let r := _api_get env (accountPath account_id)
  (r.1, apiResponseWrap "account_summary" true r.2)

/-- The transaction-download-token path. -/
def transactionDownloadTokenPath : String :=
  "/v1/customers/my/security/transaction-download-token"

/-- The `_get_transaction_download_token` method: GET the token path and
unwrap the `token` key with the envelope status check disabled. -/
def _get_transaction_download_token (env : HttpEnv) : List Event × Except PyError Json :=
  let r := _api_get env transactionDownloadTokenPath
  (r.1, apiResponseWrap "token" false r.2)

/-- The query parameter dict `list_transactions` builds, in source insertion
order. -/
def list_transactions_params (account_ids : List String)
    (period_from period_to : Date) : List (String × Json) :=
  [("accountIdentifiers", .str (String.intercalate "," account_ids)),
   ("hideAuthorizedStatus", .bool true),
   ("periodFrom", .str (strftimePeriod period_from)),
   ("periodTo", .str (strftimePeriod period_to)),
   ("skip", .num 0)]

/-- The `list_transactions` method (`client.py` lines 85-94): GET the
transactions path with the url-encoded query and unwrap the `transactions`
key of a status-checked envelope. -/
def list_transactions (env : HttpEnv) (account_ids : List String)
    (period_from period_to : Date) : List Event × Except PyError Json :=
  let path := "/pfm/v1/transactions?"
    ++ urlencode (list_transactions_params account_ids period_from period_to)
  let r := _api_get env path
  (r.1, apiResponseWrap "transactions" true r.2)

/-- The fixed download query dict built by `download_ofx` (`client.py` lines
146-162), parameterized by the branch-resolved account type code, display
name, nickname, and the fetched token. -/
def ofxDownloadParams (account_type : String)
    (account_display_name account_nickname token : Json)
    (start_date end_date : Date) : List (String × Json) :=
  [("fileType", .str "QFX"),
   ("ofxVersion", .str "102"),
   ("sessionId", .str "tng"),
   ("orgName", .str "Tangerine"),
   ("bankId", .str "0614"),
   ("language", .str "eng"),
   ("acctType", .str account_type),
   ("acctNum", account_display_name),
   ("acctName", account_nickname),
   ("userDefined", token),
   ("startDate", .str (strftimeYmd start_date)),
   ("endDate", .str (strftimeYmd end_date)),
   ("orgId", .num 10951),
   ("custom.tag", .str "customValue"),
   ("csvheader", .str "Date,Transaction,Name,Memo,Amount")]

/-- The statement-download URL: the quoted `{nickname}.QFX` filename against
the ofx host with the url-encoded download parameters. -/
def ofxUrl (account_type : String)
    (account_display_name account_nickname token : Json)
    (start_date end_date : Date) : String :=
  "https://ofx.tangerine.ca/" ++ quote (pyStr account_nickname ++ ".QFX") ++ "?"
    ++ urlencode (ofxDownloadParams account_type account_display_name
        account_nickname token start_date end_date)

/-- The local filename `download_ofx` writes when saving:
`{nickname}_{YYYYMMDD}-{YYYYMMDD}.QFX`. -/
def savedFilename (account_nickname : Json) (start_date end_date : Date) : String :=
  pyStr account_nickname ++ "_" ++ strftimeYmd start_date ++ "-"
    ++ strftimeYmd end_date ++ ".QFX"

/-- The account-type branch of `download_ofx` (`client.py` lines 128-142):
resolves the download account-type code, display name, and nickname, doing
the secondary `get_account` lookup only for credit cards, and raising
`UnsupportedAccountTypeForDownload` with the account type for any other
type. -/
def resolve_download_account (env : HttpEnv) (account : Json) :
    List Event × Except PyError (String × Json × Json) :=
  match account.subscript "type" with
  | .error e => ([], .error e)
  | .ok t =>
    if t.isStr "CHEQUING" then
      match account.subscript "display_name" with
      | .error e => ([], .error e)
      | .ok dn =>
        match account.subscript "nickname" with
        | .error e => ([], .error e)
        | .ok nn => ([], .ok ("SAVINGS", dn, nn))
    else if t.isStr "SAVINGS" then
      match account.subscript "display_name" with
      | .error e => ([], .error e)
      | .ok dn =>
        match account.subscript "nickname" with
        | .error e => ([], .error e)
        | .ok nn => ([], .ok ("SAVINGS", dn, nn))
    else if t.isStr "CREDIT_CARD" then
      match account.subscript "number" with
      | .error e => ([], .error e)
      | .ok num =>
        let r := get_account env num
        match r.2 with
        | .error e => (r.1, .error e)
        | .ok details =>
          match details.subscript "display_name" with
          | .error e => (r.1, .error e)
          | .ok dn =>
            match details.subscript "account_nick_name" with
            | .error e => (r.1, .error e)
            | .ok nn => (r.1, .ok ("CREDITLINE", dn, nn))
    else ([], .error (.unsupportedAccountTypeForDownload t))

/-- The tail of `download_ofx` after the account-type branch (`client.py`
lines 144-176): fetch the one-time token, GET the download URL, then either
write `{nickname}_{start}-{end}.QFX` and return that filename (save) or
return the raw response text. -/
def download_ofx_resolved (env : HttpEnv) (account_type : String)
    (account_display_name account_nickname : Json)
    (start_date end_date : Date) (save : Bool) : List Event × Except PyError String :=
  let t := _get_transaction_download_token env
  match t.2 with
  | .error e => (t.1, .error e)
  | .ok token =>
    let url := ofxUrl account_type account_display_name account_nickname token
      start_date end_date
    let res := env.ofxGet url
    if raiseForStatus res.1 then
      (t.1 ++ [.ofxGet url], .error (.httpError res.1))
    else if save then
      let local_filename := savedFilename account_nickname start_date end_date
      (t.1 ++ [.ofxGet url, .fileWrite local_filename res.2], .ok local_filename)
    else
      (t.1 ++ [.ofxGet url], .ok res.2)

/-- The `download_ofx` method (`client.py` lines 118-176): the account-type
branch followed by the token fetch, download GET, and save logic. -/
def download_ofx (env : HttpEnv) (account : Json)
    (start_date end_date : Date) (save : Bool) : List Event × Except PyError String :=
  match resolve_download_account env account with
  | (tr, .error e) => (tr, .error e)
  | (tr, .ok resolved) =>
    let r := download_ofx_resolved env resolved.1 resolved.2.1 resolved.2.2
      start_date end_date save
    (tr ++ r.1, r.2)

/-- The HTTP collaborators of the write pipeline: the session cookie store
and, for each POST (url, JSON body), a transport status and decoded JSON
response body. -/
structure PostEnv where
  cookies : List (String × String)
  post : String → Json → Nat × Json

/-- The cookie store lookup `session.cookies.get(name)`: `None` when the
cookie is absent. -/
def cookiesGet (cookies : List (String × String)) (name : String) : Option String :=
  match cookies with
  | [] => none
  | (k, v) :: rest => if k = name then some v else cookiesGet rest name

/-- The POST request `_api_post` assembles: headers with value `none` stand
for header entries `requests` drops because their value is Python `None`. -/
structure PostRequest where
  url : String
  headers : List (String × Option String)
  body : Json

/-- Association lookup in a header list. -/
def headersGet (headers : List (String × Option String)) (name : String) :
    Option (Option String) :=
  match headers with
  | [] => none
  | (k, v) :: rest => if k = name then some v else headersGet rest name

/-- The fixed header dict of `_api_post` (`client.py` lines 50-57), with the
transaction token read from the cookie store spliced in. -/
def apiPostHeaders (transaction_token : Option String) : List (String × Option String) :=
  [("x-web-flavour", some "fbe"),
   ("Accept", some "application/json"),
   ("Origin", some "https://www.tangerine.ca"),
   ("Referrer", some "https://www.tangerine.ca/app/"),
   ("User-Agent", some "Mozilla/5.0 (X11; Ubuntu; Linux x86_64; rv:57.0) Gecko/20100101 Firefox/57.0"),
   ("x-transaction-token", transaction_token)]

/-- The `_api_post` method (`client.py` lines 45-61): read the
`TRANSACTION_TOKEN` cookie, POST the body with the fixed headers, raise on a
4xx/5xx status, and hand the (status, decoded body) response back untouched:
no envelope field is inspected here. -/
def _api_post (env : PostEnv) (path : String) (data : Json) :
    PostRequest × Except PyError (Nat × Json) :=
  let transaction_token := cookiesGet env.cookies "TRANSACTION_TOKEN"
  let url := apiUrl path
  let req : PostRequest :=
    { url := url, headers := apiPostHeaders transaction_token, body := data }
  let res := env.post url data
  (req, if raiseForStatus res.1 then .error (.httpError res.1) else .ok res)

/-- The request body `move_money` builds (`client.py` lines 181-190). -/
def move_money_data (from_account to_account amount currency when : Json) : Json :=
  .obj [("transfers",
          .obj [("when", when),
                ("amount", amount),
                ("to_account", to_account),
                ("from_account", from_account),
                ("currency", currency)]),
        ("validate_only", .bool false)]

/-- The body of `move_money` before its decorator (`client.py` lines
178-194): POST the transfer body, print the response, and fall off the end,
so the wrapped function returns Python `None`. -/
def move_money_inner (env : PostEnv)
    (account_id from_account to_account amount currency when : Json) :
    PostRequest × Except PyError Json :=
  let path := "/v1/accounts/" ++ pyStr account_id ++ "/transactions/movemoney"
  let data := move_money_data from_account to_account amount currency when
  let r := _api_post env path data
  (r.1, match r.2 with
        | .error e => .error e
        | .ok _ => .ok .null)

/-- The `move_money` method as called: its inner body run through the
`api_response()` decorator with empty root key and the status check on. -/
def move_money (env : PostEnv)
    (account_id from_account to_account amount currency when : Json) :
    PostRequest × Except PyError Json :=
  let r := move_money_inner env account_id from_account to_account amount
    currency when
  (r.1, apiResponseWrap "" true r.2)

/-- The request body `email_money` builds (`client.py` lines 205-216):
`message` and `accepted_terms_and_conditions` are literal constants, not
parameters. -/
def email_money_data (recipient_sequence_number amount when : Json)
    (scheduled_date : Date) (emt_type : String) : Json :=
  .obj [("validate_only", .bool false),
        ("emt",
          .obj [("emt_type", .str emt_type),
                ("amount", amount),
                ("recipient_sequence_number", recipient_sequence_number),
                ("message", .str ""),
                ("accepted_terms_and_conditions", .bool true),
                ("when", when),
                ("scheduled_date", .str (strftimeIsoDate scheduled_date))])]

/-- The body of `email_money` before its decorator (`client.py` lines
196-219): POST the emt body, print the response, and fall off the end, so
the wrapped function returns Python `None`. -/
def email_money_inner (env : PostEnv)
    (source_account_number recipient_sequence_number amount when : Json)
    (scheduled_date : Date) (emt_type : String) :
    PostRequest × Except PyError Json :=
  let path := "/v1/accounts/" ++ pyStr source_account_number ++ "/transactions/emts"
  let data := email_money_data recipient_sequence_number amount when
    scheduled_date emt_type
  let r := _api_post env path data
  (r.1, match r.2 with
        | .error e => .error e
        | .ok _ => .ok .null)

/-- The `email_money` method as called: its inner body run through the
`api_response()` decorator with empty root key and the status check on. -/
def email_money (env : PostEnv)
    (source_account_number recipient_sequence_number amount when : Json)
    (scheduled_date : Date) (emt_type : String) :
    PostRequest × Except PyError Json :=
  let r := email_money_inner env source_account_number recipient_sequence_number
    amount when scheduled_date emt_type
  (r.1, apiResponseWrap "" true r.2)

/-- A call into the login flow collaborator (`login.py`, outside the client
module): the `start()` and `end()` lifecycle methods. -/
inductive LoginEvent where
  | startCalled
  | endCalled

/-- The login flow collaborator: what `start()` and `end()` do when called
(complete normally or raise). -/
structure LoginEnv where
  start_result : Except PyError Unit
  end_result : Except PyError Unit

/-- The `login` context manager (`client.py` lines 63-71) run around a body
with the given outcome, under Python `with` semantics: `start()` runs first
and, if it raises, nothing else runs; otherwise the body runs, the
`except Exception: raise` clause re-raises its exception unchanged, and the
`finally` clause always calls `end()` — an exception from `end()` itself
replaces any in-flight body exception, as a raising `finally` does. -/
def login_scope (env : LoginEnv) (body : Except PyError Unit) :
    List LoginEvent × Except PyError Unit :=
  match env.start_result with
  | .error e => ([.startCalled], .error e)
  | .ok _ =>
    match env.end_result with
    | .error e => ([.startCalled, .endCalled], .error e)
    | .ok _ => ([.startCalled, .endCalled], body)

/-- Whether one character list occurs at the head of another. -/
def matchesAt : List Char → List Char → Bool
  | [], _ => true
  | _ :: _, [] => false
  | a :: as, b :: bs => a == b && matchesAt as bs

/-- Whether the first character list occurs contiguously anywhere in the
second. -/
def containsSeq (needle : List Char) : List Char → Bool
  | [] => matchesAt needle []
  | c :: rest => matchesAt needle (c :: rest) || containsSeq needle rest

/-- Whether `needle` occurs as a contiguous substring of `hay`. -/
def strContainsSub (hay needle : String) : Bool :=
  containsSeq needle.data hay.data

/-- A 4xx/5xx check is false below 400. -/
theorem raiseForStatus_eq_false (status : Nat) (h : status < 400) :
    raiseForStatus status = false := by
  simp [raiseForStatus]
  omega

/-- A 4xx/5xx check is true inside the 400-599 band. -/
theorem raiseForStatus_eq_true (status : Nat) (h1 : 400 ≤ status)
    (h2 : status < 600) : raiseForStatus status = true := by
  simp [raiseForStatus]
  omega

/-- C1: for every decoded envelope whose `response_status.status_code` is
present, the status-checking `api_response` wrapper returns the whole
envelope for an empty root key and the root key's value otherwise when the
status code is the string `SUCCESS`, and raises `APIResponseError` carrying
the full envelope for any other status code. -/
theorem api_response_envelope_decoding (j rs sc : Json) (k : String)
    (hrs : j.subscript "response_status" = .ok rs)
    (hsc : rs.subscript "status_code" = .ok sc) :
    (sc.isStr "SUCCESS" = true →
      api_response "" true j = .ok j
      ∧ (k ≠ "" → api_response k true j = j.subscript k))
    ∧ (sc.isStr "SUCCESS" = false →
      api_response k true j = .error (.apiResponseError j)) := by
  refine ⟨fun hsucc => ⟨?_, fun hk => ?_⟩, fun hfail => ?_⟩
  · simp [api_response, hrs, hsc, hsucc]
  · simp [api_response, hrs, hsc, hsucc, hk]
  · simp [api_response, hrs, hsc, hfail]

/-- A well-formed success envelope carrying an `accounts` payload. -/
def envelopeOk : Json :=
  .obj [("response_status", .obj [("status_code", .str "SUCCESS")]),
        ("accounts", .arr [])]

/-- An envelope with a non-`SUCCESS` status code. -/
def envelopeFailed : Json :=
  .obj [("response_status", .obj [("status_code", .str "FAILED")])]

/-- C1 witness: the decoder unwraps the `accounts` payload of a concrete
success envelope and raises `APIResponseError` on a concrete failed one. -/
theorem api_response_envelope_decoding_witness :
    api_response "accounts" true envelopeOk = .ok (.arr [])
    ∧ api_response "accounts" true envelopeFailed
        = .error (.apiResponseError envelopeFailed) := by
  constructor
  · have h := api_response_envelope_decoding envelopeOk
      (.obj [("status_code", .str "SUCCESS")]) (.str "SUCCESS") "accounts" rfl rfl
    have h2 := (h.1 rfl).2 (by decide)
    rw [h2]
    rfl
  · have h := api_response_envelope_decoding envelopeFailed
      (.obj [("status_code", .str "FAILED")]) (.str "FAILED") "accounts" rfl rfl
    exact h.2 rfl

/-- C4: an account whose type is none of CHEQUING, SAVINGS, CREDIT_CARD makes
`download_ofx` fail with `UnsupportedAccountTypeForDownload` carrying that
type, with an empty effect trace: no token fetch, no account lookup, no
download GET, no file write. -/
theorem download_ofx_unsupported_type (env : HttpEnv) (account t : Json)
    (start_date end_date : Date) (save : Bool)
    (hty : account.subscript "type" = .ok t)
    (h1 : t.isStr "CHEQUING" = false)
    (h2 : t.isStr "SAVINGS" = false)
    (h3 : t.isStr "CREDIT_CARD" = false) :
    download_ofx env account start_date end_date save
      = ([], .error (.unsupportedAccountTypeForDownload t)) := by
  simp [download_ofx, resolve_download_account, hty, h1, h2, h3]

/-- An HTTP environment answering every GET with an empty success. -/
def httpEnvTrivial : HttpEnv :=
  { apiGet := fun _ => (200, .null), ofxGet := fun _ => (200, "") }

/-- A list-view account record of an unsupported type. -/
def accountMortgage : Json :=
  .obj [("type", .str "MORTGAGE"), ("display_name", .str "999"),
        ("nickname", .str "mort")]

/-- C4 witness: downloading a MORTGAGE account fails before any effect. -/
theorem download_ofx_unsupported_type_witness :
    download_ofx httpEnvTrivial accountMortgage ⟨2023, 1, 1⟩ ⟨2023, 1, 31⟩ true
      = ([], .error (.unsupportedAccountTypeForDownload (.str "MORTGAGE"))) :=
  download_ofx_unsupported_type httpEnvTrivial accountMortgage (.str "MORTGAGE")
    ⟨2023, 1, 1⟩ ⟨2023, 1, 31⟩ true rfl rfl rfl rfl

/-- C10: whatever arguments `email_money` is called with, the POSTed body is
exactly `email_money_data`, whose `emt.message` is the empty string and whose
`emt.accepted_terms_and_conditions` is `True`; no caller argument reaches
either field. -/
theorem email_money_fixed_fields (env : PostEnv)
    (source_account_number recipient_sequence_number amount when : Json)
    (scheduled_date : Date) (emt_type : String) :
    (email_money env source_account_number recipient_sequence_number amount
        when scheduled_date emt_type).1.body
      = email_money_data recipient_sequence_number amount when scheduled_date
          emt_type
    ∧ ∃ emt,
        (email_money_data recipient_sequence_number amount when scheduled_date
            emt_type).subscript "emt" = .ok emt
        ∧ emt.subscript "message" = .ok (.str "")
        ∧ emt.subscript "accepted_terms_and_conditions" = .ok (.bool true) := by
  exact ⟨rfl, _, rfl, rfl, rfl⟩

/-- The account-type branch keeps the list-view fields and does nothing
observable for CHEQUING and SAVINGS accounts. -/
theorem resolve_chequing_savings (env : HttpEnv) (account dn nn : Json)
    (hty : account.subscript "type" = .ok (.str "CHEQUING")
        ∨ account.subscript "type" = .ok (.str "SAVINGS"))
    (hdn : account.subscript "display_name" = .ok dn)
    (hnn : account.subscript "nickname" = .ok nn) :
    resolve_download_account env account = ([], .ok ("SAVINGS", dn, nn)) := by
  rcases hty with h | h <;>
    simp [resolve_download_account, h, hdn, hnn, Json.isStr]

/-- The only main-API GET the post-branch part of `download_ofx` can issue is
the token fetch. -/
theorem download_ofx_resolved_trace_apiGet (env : HttpEnv)
    (account_type : String) (dn nn : Json) (start_date end_date : Date)
    (save : Bool) (u : String)
    (h : Event.apiGet u
      ∈ (download_ofx_resolved env account_type dn nn start_date end_date save).1) :
    u = apiUrl transactionDownloadTokenPath := by
  rcases hw : (_get_transaction_download_token env).2 with e | token
  · simp only [download_ofx_resolved] at h
    rw [hw] at h
    simp [_get_transaction_download_token, _api_get] at h
    exact h
  · simp only [download_ofx_resolved] at h
    rw [hw] at h
    cases hb : raiseForStatus
        (env.ofxGet (ofxUrl account_type dn nn token start_date end_date)).1 <;>
      cases save <;>
      simp [hb, _get_transaction_download_token, _api_get] at h <;>
      exact h

/-- C2: a CHEQUING or SAVINGS account makes `download_ofx` behave exactly as
the post-branch download with account-type code `SAVINGS` and the account's
own `display_name` and `nickname`, and the only main-API GET it can issue is
the token fetch — in particular no secondary `get_account` lookup happens. -/
theorem download_ofx_chequing_savings (env : HttpEnv) (account dn nn : Json)
    (start_date end_date : Date) (save : Bool)
    (hty : account.subscript "type" = .ok (.str "CHEQUING")
        ∨ account.subscript "type" = .ok (.str "SAVINGS"))
    (hdn : account.subscript "display_name" = .ok dn)
    (hnn : account.subscript "nickname" = .ok nn) :
    download_ofx env account start_date end_date save
      = download_ofx_resolved env "SAVINGS" dn nn start_date end_date save
    ∧ ∀ u, Event.apiGet u ∈ (download_ofx env account start_date end_date save).1 →
        u = apiUrl transactionDownloadTokenPath := by
  have hres := resolve_chequing_savings env account dn nn hty hdn hnn
  have heq : download_ofx env account start_date end_date save
      = download_ofx_resolved env "SAVINGS" dn nn start_date end_date save := by
    simp [download_ofx, hres]
  refine ⟨heq, fun u hu => ?_⟩
  rw [heq] at hu
  exact download_ofx_resolved_trace_apiGet env "SAVINGS" dn nn start_date
    end_date save u hu

/-- A list-view CHEQUING account record. -/
def accountChequing : Json :=
  .obj [("type", .str "CHEQUING"), ("display_name", .str "111"),
        ("nickname", .str "chq")]

/-- C2 witness: a concrete CHEQUING account resolves to the `SAVINGS`
download code with its own fields. -/
theorem download_ofx_chequing_savings_witness :
    download_ofx httpEnvTrivial accountChequing ⟨2023, 1, 1⟩ ⟨2023, 1, 31⟩ true
      = download_ofx_resolved httpEnvTrivial "SAVINGS" (.str "111") (.str "chq")
          ⟨2023, 1, 1⟩ ⟨2023, 1, 31⟩ true :=
  (download_ofx_chequing_savings httpEnvTrivial accountChequing (.str "111")
    (.str "chq") ⟨2023, 1, 1⟩ ⟨2023, 1, 31⟩ true (Or.inl rfl) rfl rfl).1

/-- The account-type branch performs the `get_account` lookup for a credit
card and takes the detail record's fields. -/
theorem resolve_credit_card (env : HttpEnv) (account num benv details dn nn : Json)
    (status : Nat)
    (hty : account.subscript "type" = .ok (.str "CREDIT_CARD"))
    (hnum : account.subscript "number" = .ok num)
    (henv : env.apiGet (apiUrl (accountPath num)) = (status, benv))
    (hst : status < 400)
    (hwrap : api_response "account_summary" true benv = .ok details)
    (hdn : details.subscript "display_name" = .ok dn)
    (hnn : details.subscript "account_nick_name" = .ok nn) :
    resolve_download_account env account
      = ([.apiGet (apiUrl (accountPath num))], .ok ("CREDITLINE", dn, nn)) := by
  simp [resolve_download_account, hty, hnum, Json.isStr, get_account, _api_get,
    apiResponseWrap, henv, raiseForStatus_eq_false status hst, hwrap, hdn, hnn]

/-- C3: a CREDIT_CARD account makes `download_ofx` first GET the account
detail path for the account's number and then behave exactly as the
post-branch download with account-type code `CREDITLINE` and the detail
record's `display_name` and `account_nick_name` instead of the list-view
fields. -/
theorem download_ofx_credit_card (env : HttpEnv)
    (account num benv details dn nn : Json) (status : Nat)
    (start_date end_date : Date) (save : Bool)
    (hty : account.subscript "type" = .ok (.str "CREDIT_CARD"))
    (hnum : account.subscript "number" = .ok num)
    (henv : env.apiGet (apiUrl (accountPath num)) = (status, benv))
    (hst : status < 400)
    (hwrap : api_response "account_summary" true benv = .ok details)
    (hdn : details.subscript "display_name" = .ok dn)
    (hnn : details.subscript "account_nick_name" = .ok nn) :
    download_ofx env account start_date end_date save
      = (Event.apiGet (apiUrl (accountPath num))
          :: (download_ofx_resolved env "CREDITLINE" dn nn start_date end_date save).1,
         (download_ofx_resolved env "CREDITLINE" dn nn start_date end_date save).2) := by
  have hres := resolve_credit_card env account num benv details dn nn status
    hty hnum henv hst hwrap hdn hnn
  simp [download_ofx, hres]

/-- The success envelope the stub environment returns for the credit-card
detail lookup. -/
def creditCardDetailEnvelope : Json :=
  .obj [("response_status", .obj [("status_code", .str "SUCCESS")]),
        ("account_summary",
          .obj [("display_name", .str "4500"), ("account_nick_name", .str "cc")])]

/-- An HTTP stub environment: the credit-card detail path answers with the
detail envelope, every other main-API GET answers with a token envelope, and
the download host answers with raw statement text. -/
def httpEnvStub : HttpEnv :=
  { apiGet := fun url =>
      if url = apiUrl (accountPath (.str "123")) then (200, creditCardDetailEnvelope)
      else (200, .obj [("token", .str "tok123")]),
    ofxGet := fun _ => (200, "OFXDATA") }

/-- A list-view CREDIT_CARD account record, which carries no display
fields. -/
def accountCreditCard : Json :=
  .obj [("type", .str "CREDIT_CARD"), ("number", .str "123")]

/-- C3 witness: a concrete credit card is looked up and the detail record's
fields are the ones used downstream. -/
theorem download_ofx_credit_card_witness :
    download_ofx httpEnvStub accountCreditCard ⟨2023, 1, 1⟩ ⟨2023, 1, 31⟩ false
      = (Event.apiGet (apiUrl (accountPath (.str "123")))
          :: (download_ofx_resolved httpEnvStub "CREDITLINE" (.str "4500")
              (.str "cc") ⟨2023, 1, 1⟩ ⟨2023, 1, 31⟩ false).1,
         (download_ofx_resolved httpEnvStub "CREDITLINE" (.str "4500")
            (.str "cc") ⟨2023, 1, 1⟩ ⟨2023, 1, 31⟩ false).2) :=
  download_ofx_credit_card httpEnvStub accountCreditCard (.str "123")
    creditCardDetailEnvelope
    (.obj [("display_name", .str "4500"), ("account_nick_name", .str "cc")])
    (.str "4500") (.str "cc") 200 ⟨2023, 1, 1⟩ ⟨2023, 1, 31⟩ false
    rfl rfl rfl (by decide) rfl rfl rfl

/-- C5: once the account branch has resolved and the token fetch and the
download GET succeed, `download_ofx` with `save=False` returns the raw
response text with no file-write effect, and with `save=True` writes the raw
text to `{nickname}_{YYYYMMDD}-{YYYYMMDD}.QFX` and returns that filename. -/
theorem download_ofx_save_behavior (env : HttpEnv) (account : Json)
    (trace0 : List Event) (account_type : String) (dn nn : Json)
    (start_date end_date : Date) (st1 : Nat) (b1 tk : Json) (st2 : Nat)
    (text : String)
    (hres : resolve_download_account env account = (trace0, .ok (account_type, dn, nn)))
    (htok : env.apiGet (apiUrl transactionDownloadTokenPath) = (st1, b1))
    (hst1 : st1 < 400)
    (htk : b1.subscript "token" = .ok tk)
    (hofx : env.ofxGet (ofxUrl account_type dn nn tk start_date end_date)
      = (st2, text))
    (hst2 : st2 < 400) :
    download_ofx env account start_date end_date false
      = (trace0 ++ [.apiGet (apiUrl transactionDownloadTokenPath),
          .ofxGet (ofxUrl account_type dn nn tk start_date end_date)],
         .ok text)
    ∧ download_ofx env account start_date end_date true
      = (trace0 ++ [.apiGet (apiUrl transactionDownloadTokenPath),
          .ofxGet (ofxUrl account_type dn nn tk start_date end_date),
          .fileWrite (savedFilename nn start_date end_date) text],
         .ok (savedFilename nn start_date end_date)) := by
  constructor <;>
    simp [download_ofx, hres, download_ofx_resolved,
      _get_transaction_download_token, _api_get, apiResponseWrap, api_response,
      htok, raiseForStatus_eq_false st1 hst1, htk, hofx,
      raiseForStatus_eq_false st2 hst2]

/-- C5 witness: the concrete CHEQUING download returns the raw text without
saving and the dated QFX filename when saving. -/
theorem download_ofx_save_behavior_witness :
    (download_ofx httpEnvStub accountChequing ⟨2023, 1, 1⟩ ⟨2023, 1, 31⟩ false).2
      = .ok "OFXDATA"
    ∧ (download_ofx httpEnvStub accountChequing ⟨2023, 1, 1⟩ ⟨2023, 1, 31⟩ true).2
      = .ok "chq_20230101-20230131.QFX" := by
  have h := download_ofx_save_behavior httpEnvStub accountChequing []
    "SAVINGS" (.str "111") (.str "chq") ⟨2023, 1, 1⟩ ⟨2023, 1, 31⟩ 200
    (.obj [("token", .str "tok123")]) (.str "tok123") 200 "OFXDATA"
    rfl rfl (by decide) rfl rfl (by decide)
  constructor
  · rw [h.1]
  · rw [h.2]
    rfl

/-- The full GET URL the scenario `list_transactions(["acc1"], 2023-01-01,
2023-01-31)` issues, with the colons of the period timestamps percent-encoded
by `urlencode`'s `quote_plus`. -/
def c6Url : String :=
  "https://secure.tangerine.ca/web/rest/pfm/v1/transactions?accountIdentifiers=acc1&hideAuthorizedStatus=True&periodFrom=2023-01-01T00%3A00%3A00.000Z&periodTo=2023-01-31T00%3A00%3A00.000Z&skip=0"

/-- C6 counterexample: the GET issued by the scenario call carries the query
with the period timestamps percent-encoded, so the literal substring
`periodFrom=2023-01-01T00:00:00.000Z` the claim names does not occur in the
query string. -/
theorem list_transactions_query_cex :
    (list_transactions httpEnvTrivial ["acc1"] ⟨2023, 1, 1⟩ ⟨2023, 1, 31⟩).1
      = [Event.apiGet c6Url]
    ∧ strContainsSub c6Url "periodFrom=2023-01-01T00:00:00.000Z" = false := by
  constructor
  · rfl
  · decide

/-- C6 (amended): the scenario GET's query string carries
`accountIdentifiers=acc1`, `skip=0`, `hideAuthorizedStatus=True`, and the
period parameters with their colons percent-encoded as
`periodFrom=2023-01-01T00%3A00%3A00.000Z` and
`periodTo=2023-01-31T00%3A00%3A00.000Z`. -/
theorem list_transactions_query (env : HttpEnv) :
    (list_transactions env ["acc1"] ⟨2023, 1, 1⟩ ⟨2023, 1, 31⟩).1
      = [Event.apiGet c6Url]
    ∧ strContainsSub c6Url "accountIdentifiers=acc1" = true
    ∧ strContainsSub c6Url "periodFrom=2023-01-01T00%3A00%3A00.000Z" = true
    ∧ strContainsSub c6Url "periodTo=2023-01-31T00%3A00%3A00.000Z" = true
    ∧ strContainsSub c6Url "skip=0" = true
    ∧ strContainsSub c6Url "hideAuthorizedStatus=True" = true := by
  exact ⟨rfl, by decide, by decide, by decide, by decide, by decide⟩

/-- C6 witness: the amended query facts at the trivial environment. -/
theorem list_transactions_query_witness :
    (list_transactions httpEnvTrivial ["acc1"] ⟨2023, 1, 1⟩ ⟨2023, 1, 31⟩).1
      = [Event.apiGet c6Url]
    ∧ strContainsSub c6Url "skip=0" = true :=
  ⟨(list_transactions_query httpEnvTrivial).1,
    (list_transactions_query httpEnvTrivial).2.2.2.2.1⟩

/-- A write environment whose POST answers with a 302 redirect status. -/
def postEnv302 : PostEnv :=
  { cookies := [], post := fun _ _ => (302, .null) }

/-- C7 counterexample: a 302 response is not a 2xx status, yet `_api_post`
raises nothing and hands the response back, because `raise_for_status` only
fires on 4xx/5xx. -/
theorem api_post_non2xx_cex :
    ¬(200 ≤ 302 ∧ 302 < 300)
    ∧ (_api_post postEnv302 "/v1/x" .null).2 = .ok (302, .null) :=
  ⟨by decide, rfl⟩

/-- C7 (amended): every POST issued by `_api_post` carries the
`TRANSACTION_TOKEN` value currently in the session cookie store as the
`x-transaction-token` header, and a 4xx or 5xx transport status raises an
error that discards the response body, before any envelope decoding. -/
theorem api_post_token_header_and_raise (env : PostEnv) (path : String)
    (data : Json) :
    headersGet (_api_post env path data).1.headers "x-transaction-token"
      = some (cookiesGet env.cookies "TRANSACTION_TOKEN")
    ∧ ∀ st body, env.post (apiUrl path) data = (st, body) →
        400 ≤ st → st < 600 →
        (_api_post env path data).2 = .error (.httpError st) := by
  constructor
  · rfl
  · intro st body hpost h1 h2
    simp [_api_post, hpost, raiseForStatus_eq_true st h1 h2]

/-- A write environment with a stored transaction token whose POST answers
with a 500 status. -/
def postEnv500 : PostEnv :=
  { cookies := [("TRANSACTION_TOKEN", "tok")], post := fun _ _ => (500, .null) }

/-- C7 witness: the concrete 500-answering environment gets the stored token
attached and raises the transport error. -/
theorem api_post_token_header_and_raise_witness :
    headersGet (_api_post postEnv500 "/v1/x" .null).1.headers "x-transaction-token"
      = some (some "tok")
    ∧ (_api_post postEnv500 "/v1/x" .null).2 = .error (.httpError 500) := by
  have h := api_post_token_header_and_raise postEnv500 "/v1/x" .null
  exact ⟨h.1, h.2 500 .null rfl (by decide) (by decide)⟩

/-- A login flow whose `start()` succeeds and whose `end()` (logout POST)
raises. -/
def loginEnvEndRaises : LoginEnv :=
  { start_result := .ok (), end_result := .error (.httpError 500) }

/-- C8 counterexample: when the body raises `TypeError` but the `finally`
logout itself raises, the caller sees the logout error, not the body
exception, so the body exception does not propagate unchanged. -/
theorem login_scope_cex :
    (login_scope loginEnvEndRaises (.error .typeError)).2
      = .error (.httpError 500)
    ∧ (login_scope loginEnvEndRaises (.error .typeError)).2
      ≠ .error .typeError := by
  refine ⟨rfl, fun hcontra => ?_⟩
  rw [show (login_scope loginEnvEndRaises (.error .typeError)).2
      = Except.error (.httpError 500) from rfl] at hcontra
  injection hcontra with h
  nomatch h

/-- C8 (amended): once `start()` has succeeded, the login scope calls
`end()` on every exit path — normal completion and every body exception —
and, provided `end()` itself does not raise, the body's outcome (value or
exception) reaches the caller unchanged. -/
theorem login_scope_guarantees_end (env : LoginEnv) (body : Except PyError Unit)
    (hstart : env.start_result = .ok ()) :
    LoginEvent.endCalled ∈ (login_scope env body).1
    ∧ (env.end_result = .ok () → (login_scope env body).2 = body) := by
  cases he : env.end_result with
  | error e => simp [login_scope, hstart, he]
  | ok u => cases u; simp [login_scope, hstart, he]

/-- A login flow whose lifecycle calls both succeed. -/
def loginEnvOk : LoginEnv :=
  { start_result := .ok (), end_result := .ok () }

/-- C8 witness: with a well-behaved flow, a raising body still gets the
logout call and its exception reaches the caller unchanged. -/
theorem login_scope_guarantees_end_witness :
    LoginEvent.endCalled ∈ (login_scope loginEnvOk (.error .typeError)).1
    ∧ (login_scope loginEnvOk (.error .typeError)).2 = .error .typeError := by
  have h := login_scope_guarantees_end loginEnvOk (.error .typeError) rfl
  exact ⟨h.1, h.2 rfl⟩

/-- Wrapping a body that either raised or returned Python `None` through the
status-checking decorator yields the body's exception or the `TypeError`
from subscripting `None`. -/
theorem apiResponseWrap_of_none (r : Except PyError (Nat × Json)) :
    apiResponseWrap "" true
        (match r with
          | .error e => .error e
          | .ok _ => (.ok .null : Except PyError Json))
      = match r with
        | .error e => .error e
        | .ok _ => .error .typeError := by
  cases r <;> rfl

/-- C9: `move_money` and `email_money` never produce a decoded value: their
wrapped bodies return `None`, so the `api_response` wrapper never returns
`ok`, and whenever the POST itself succeeds (status below 400) the result is
precisely the `TypeError` from subscripting `None`. -/
theorem money_ops_always_fail (env : PostEnv)
    (account_id from_account to_account amount currency when : Json)
    (source_account_number recipient_sequence_number amount2 when2 : Json)
    (scheduled_date : Date) (emt_type : String) :
    (∀ v, (move_money env account_id from_account to_account amount currency
        when).2 ≠ .ok v)
    ∧ (∀ st body,
        env.post (apiUrl ("/v1/accounts/" ++ pyStr account_id
            ++ "/transactions/movemoney"))
          (move_money_data from_account to_account amount currency when)
          = (st, body) →
        st < 400 →
        (move_money env account_id from_account to_account amount currency
          when).2 = .error .typeError)
    ∧ (∀ v, (email_money env source_account_number recipient_sequence_number
        amount2 when2 scheduled_date emt_type).2 ≠ .ok v)
    ∧ (∀ st body,
        env.post (apiUrl ("/v1/accounts/" ++ pyStr source_account_number
            ++ "/transactions/emts"))
          (email_money_data recipient_sequence_number amount2 when2
            scheduled_date emt_type)
          = (st, body) →
        st < 400 →
        (email_money env source_account_number recipient_sequence_number
          amount2 when2 scheduled_date emt_type).2 = .error .typeError) := by
  have hmv : (move_money env account_id from_account to_account amount currency
      when).2
      = match (_api_post env ("/v1/accounts/" ++ pyStr account_id
          ++ "/transactions/movemoney")
          (move_money_data from_account to_account amount currency when)).2 with
        | .error e => .error e
        | .ok _ => .error .typeError := by
    exact apiResponseWrap_of_none _
  have hem : (email_money env source_account_number recipient_sequence_number
      amount2 when2 scheduled_date emt_type).2
      = match (_api_post env ("/v1/accounts/" ++ pyStr source_account_number
          ++ "/transactions/emts")
          (email_money_data recipient_sequence_number amount2 when2
            scheduled_date emt_type)).2 with
        | .error e => .error e
        | .ok _ => .error .typeError := by
    exact apiResponseWrap_of_none _
  refine ⟨fun v => ?_, fun st body hpost hst => ?_, fun v => ?_,
    fun st body hpost hst => ?_⟩
  · rw [hmv]
    cases (_api_post env ("/v1/accounts/" ++ pyStr account_id
        ++ "/transactions/movemoney")
        (move_money_data from_account to_account amount currency when)).2 <;>
      simp
  · rw [hmv]
    simp [_api_post, hpost, raiseForStatus_eq_false st hst]
  · rw [hem]
    cases (_api_post env ("/v1/accounts/" ++ pyStr source_account_number
        ++ "/transactions/emts")
        (email_money_data recipient_sequence_number amount2 when2
          scheduled_date emt_type)).2 <;>
      simp
  · rw [hem]
    simp [_api_post, hpost, raiseForStatus_eq_false st hst]

/-- A write environment whose POST succeeds with an empty success body. -/
def postEnv200 : PostEnv :=
  { cookies := [("TRANSACTION_TOKEN", "tok")], post := fun _ _ => (200, .obj []) }

/-- C9 witness: with a succeeding POST, both operations still fail with the
`TypeError` from subscripting `None`. -/
theorem money_ops_always_fail_witness :
    (move_money postEnv200 .null .null .null .null .null .null).2
      = .error .typeError
    ∧ (email_money postEnv200 .null .null .null .null ⟨2023, 1, 1⟩
        "INTERAC_EMT").2 = .error .typeError := by
  have h := money_ops_always_fail postEnv200 .null .null .null .null .null
    .null .null .null .null .null ⟨2023, 1, 1⟩ "INTERAC_EMT"
  exact ⟨h.2.1 200 (.obj []) rfl (by decide),
    h.2.2.2 200 (.obj []) rfl (by decide)⟩

/-- C10 witness: the fixed fields at concrete arguments. -/
theorem email_money_fixed_fields_witness :
    ∃ emt,
      (email_money_data (.str "1") (.num 25) (.str "NOW") ⟨2023, 1, 1⟩
          "INTERAC_EMT").subscript "emt" = .ok emt
      ∧ emt.subscript "message" = .ok (.str "")
      ∧ emt.subscript "accepted_terms_and_conditions" = .ok (.bool true) :=
  (email_money_fixed_fields postEnv200 (.str "7") (.str "1") (.num 25)
    (.str "NOW") ⟨2023, 1, 1⟩ "INTERAC_EMT").2

end Tangerine
